import Mathlib

/-!
Verification of the self-modification pipeline and the isolated code
execution engine of the `self_modifying_ai` repository.

The Lean definitions below are a shallow embedding of the Python source:

* `core_components/code_executor.py` — `CodeExecutor.execute_python_snippet`
  and its result class `CodeExecutionResult`.  The interaction with the
  operating system (spawning the child process, the pipes, the timeout) is
  abstracted into a `ProcOutcome` value describing what the environment did;
  the embedding reproduces exactly how each branch of the Python
  `try/except/finally` turns that outcome into a `CodeExecutionResult` and
  what happens to the temporary script file.
* `main_orchestrator.py` — `extract_code_between_markers` (character-exact,
  over `List Char`), `MainOrchestrator._execute_staged_tests` (with the
  pytest process outcome abstracted, as above), and the
  `propose_self_update` branch of `MainOrchestrator.process_command`,
  embedded as a function from an environment of oracle answers (LLM reply,
  syntax-validation verdicts, staging/backup/apply outcomes, the operator's
  answer) to the list of pipeline events the code performs, in order.
* `core_components/ai_updater.py` — `backup_module_or_file` and
  `apply_staged_update` over a filesystem model mapping each relative
  path to the complete artifact (file or directory tree) rooted there.

The file is organised as: all definitions first, then helper lemmas, then
one theorem per specification claim (with witnesses / counterexamples).
-/

/-! ## Definitions: execution engine (`CodeExecutor.execute_python_snippet`) -/

/-- Mirror of the Python `CodeExecutionResult` class.  `duration` is the
wall-clock time measured by the executor; the embedding takes it as an
input (`elapsed`) since `time.monotonic()` is ambient. -/
structure CodeExecutionResult where
  success : Bool
  stdout : String
  stderr : String
  return_code : Int
  duration : Nat
  error : Option String
  deriving Repr, DecidableEq

/-- What the operating system did with the spawned child process.  This is
the input the environment feeds to `execute_python_snippet`:

* `completed` — `Popen` and `communicate` succeeded; carries the captured
  stdout, stderr and the process exit code;
* `timedOut` — `communicate` raised `subprocess.TimeoutExpired`; carries the
  output drained by the second `communicate()` call after `process.kill()`;
* `interpreterNotFound` — `Popen` raised `FileNotFoundError`;
* `spawnFailure` — `Popen` raised some other exception (e.g.
  `PermissionError`); carries `str(e)`;
* `runtimeFailure` — some other exception after the spawn (hits the same
  generic `except Exception` branch as `spawnFailure`); carries `str(e)`. -/
inductive ProcOutcome where
  | completed (stdout stderr : String) (code : Int)
  | timedOut (stdout stderr : String)
  | interpreterNotFound
  | spawnFailure (msg : String)
  | runtimeFailure (msg : String)
  deriving Repr, DecidableEq

/-- Embedding of `CodeExecutor.execute_python_snippet`
(`code_executor.py`, lines 25–84).  Returns the `CodeExecutionResult` the
Python function returns together with a `Bool` saying whether the temporary
script file still exists after the function exits.  The temporary file is
created before the `try` block (`tmpCreated`); the `finally` block removes
it when it exists, on every path out of the `try`. -/
def execute_python_snippet (python_executable : String) (elapsed : Nat)
    (o : ProcOutcome) : CodeExecutionResult × Bool :=
  let tmpCreated : Bool := true
  let result : CodeExecutionResult :=
    match o with
    | .completed out err code =>
        { success := decide (code = 0), stdout := out, stderr := err,
          return_code := code, duration := elapsed, error := none }
    | .timedOut out err =>
        { success := false, stdout := out, stderr := err,
          return_code := -1, duration := elapsed,
          error := some "Execution timed out." }
    | .interpreterNotFound =>
        { success := false, stdout := "", stderr := "",
          return_code := -1, duration := elapsed,
          error := some ("Python interpreter not found at "
                          ++ python_executable ++ ".") }
    | .spawnFailure msg =>
        { success := false, stdout := "", stderr := msg,
          return_code := -1, duration := elapsed,
          error := some ("An unexpected error occurred: " ++ msg) }
    | .runtimeFailure msg =>
        { success := false, stdout := "", stderr := msg,
          return_code := -1, duration := elapsed,
          error := some ("An unexpected error occurred: " ++ msg) }
  let tmpAfterFinally : Bool := if tmpCreated then false else tmpCreated
  (result, tmpAfterFinally)

/-! ## Definitions: code extractor (`extract_code_between_markers`) -/

/-- The characters stripped by Python's `str.strip()` for ASCII input. -/
def isPySpace (c : Char) : Bool :=
  c = ' ' || c = '\t' || c = '\n' || c = '\r' || c = '\x0b' || c = '\x0c'

/-- Embedding of Python `str.strip()`: removes leading and trailing
whitespace. -/
def pyStrip (l : List Char) : List Char :=
  ((l.dropWhile isPySpace).reverse.dropWhile isPySpace).reverse

/-- The marker pattern `pat` matches `text` starting at position `i`
(computable check used by the search loop). -/
def matchesAt (text pat : List Char) (i : Nat) : Bool :=
  decide ((text.drop i).take pat.length = pat)

/-- Linear scan for the first match position, starting at `i`, with `fuel`
positions left to inspect. -/
def findIdxGo (text pat : List Char) : Nat → Nat → Option Nat
  | _, 0 => none
  | i, fuel + 1 =>
      if matchesAt text pat i then some i else findIdxGo text pat (i + 1) fuel

/-- Embedding of Python `text.index(pat, s)` (as used by
`extract_code_between_markers`), returning `none` where Python raises
`ValueError`: the least `i ≥ s` at which `pat` matches, scanning positions
`s, s+1, …, text.length`. -/
def findIdxFrom (text pat : List Char) (s : Nat) : Option Nat :=
  if s ≤ text.length then findIdxGo text pat s (text.length + 1 - s) else none

/-- Embedding of `extract_code_between_markers` (`main_orchestrator.py`,
lines 381–387): find the first occurrence of `start_marker`, then the first
occurrence of `end_marker` at or after the end of the start marker, and
return the stripped text between them; `none` where Python catches
`ValueError` and returns `None`. -/
def extract_code_between_markers (text start_marker end_marker : List Char) :
    Option (List Char) :=
  match findIdxFrom text start_marker 0 with
  | none => none
  | some idx =>
      let s := idx + start_marker.length
      match findIdxFrom text end_marker s with
      | none => none
      | some e => some (pyStrip ((text.drop s).take (e - s)))

/-- Declarative notion of occurrence: `pat` occurs in `text` at index `i`. -/
def occursAt (text pat : List Char) (i : Nat) : Prop :=
  ∃ u v, text = u ++ pat ++ v ∧ u.length = i

/-- `i` is the first index `≥ s` at which `pat` occurs in `text`. -/
def firstOccFrom (text pat : List Char) (s i : Nat) : Prop :=
  s ≤ i ∧ occursAt text pat i ∧ ∀ k, k < i → s ≤ k → ¬ occursAt text pat k

/-! ## Definitions: test runner (`MainOrchestrator._execute_staged_tests`) -/

/-- What the pytest child-process invocation (`subprocess.run` with
`timeout=60`) did: completed with an exit code and captured output, raised
`subprocess.TimeoutExpired`, or raised some other exception (carrying
`str(e)`). -/
inductive PytestOutcome where
  | completed (stdout stderr : String) (code : Int)
  | timedOut
  | failedToRun (msg : String)
  deriving Repr, DecidableEq

/-- The fixed timeout in seconds passed to `subprocess.run` for the pytest
invocation (`main_orchestrator.py`, line 121). -/
def pytest_timeout_seconds : Nat := 60

/-- The combined output string built by `_execute_staged_tests`: the stdout
block, then a stderr block only when stderr is non-empty. -/
def pytest_output (stdout stderr : String) : String :=
  "Pytest STDOUT:\n" ++ stdout ++ "\n" ++
    (if stderr ≠ "" then "Pytest STDERR:\n" ++ stderr ++ "\n" else "")

/-- Embedding of `MainOrchestrator._execute_staged_tests`
(`main_orchestrator.py`, lines 87–141): maps the pytest process outcome to
the returned pair `(tests_passed, test_output)`. -/
def execute_staged_tests : PytestOutcome → Bool × String
  | .completed out err code =>
      if code = 0 then (true, pytest_output out err)
      else if code = 1 then (false, pytest_output out err)
      else (false, "Pytest execution error (code " ++ toString code ++ ").\n"
                     ++ pytest_output out err)
  | .timedOut => (false, "Pytest execution timed out.")
  | .failedToRun msg =>
      (false, "An unexpected error occurred while running pytest: " ++ msg)

/-! ## Definitions: the `propose_self_update` pipeline -/

/-- The four marker strings of `propose_self_update`
(`main_orchestrator.py`, lines 331–334). -/
def main_code_marker : List Char := "===BEGIN_MAIN_CODE===".data

/-- End marker of the main-code section. -/
def end_main_code_marker : List Char := "===END_MAIN_CODE===".data

/-- Begin marker of the test-code section. -/
def test_code_marker : List Char := "===BEGIN_TEST_CODE===".data

/-- End marker of the test-code section. -/
def end_test_code_marker : List Char := "===END_TEST_CODE===".data

/-- Observable actions of one `propose_self_update` request, in program
order.  `testRunnerInvoked` would mark a call to `_execute_staged_tests`;
listing it in the inductive makes its absence from a run expressible. -/
inductive PipelineEvent where
  | generationFailed
  | emptyResponse
  | extractionFailedMain
  | extractionFailedTest
  | validationFailedMain
  | validationFailedTest
  | stagedMain
  | stagedTest
  | stagingFailed
  | testRunnerInvoked
  | confirmationPrompted
  | backedUp
  | noBackupNeeded
  | applied
  | applyFailed
  | cancelled
  deriving Repr, DecidableEq

/-- Oracle answers for the external effects of one `propose_self_update`
request: the LLM call's outcome, the two `ast.parse` verdicts, whether each
staging call succeeds, the operator's confirmation answer, and the
backup/apply outcomes. -/
structure PipelineEnv where
  llmSuccess : Bool
  generatedText : String
  mainParses : Bool
  testParses : Bool
  stageMainOk : Bool
  stageTestOk : Bool
  userConfirms : Bool
  backupThrows : Bool
  backupExists : Bool
  applyThrows : Bool
  deriving Repr, DecidableEq

/-- Embedding of the `propose_self_update` branch of
`MainOrchestrator.process_command` (`main_orchestrator.py`, lines 316–529),
as the list of pipeline events the code performs, in order.  Extraction is
the real `extract_code_between_markers` applied to the LLM text with the
four marker constants; the Python truthiness test `if not code_to_stage`
fails a section when extraction returns `None` or the empty string.  Note
that after staging the code prints that automated test execution is skipped
and goes directly to the operator confirmation prompt
(`main_orchestrator.py`, lines 469–483): no `testRunnerInvoked` event is
ever emitted. -/
def process_self_update (env : PipelineEnv) : List PipelineEvent :=
  if env.llmSuccess = false then [.generationFailed]
  else if env.generatedText = "" then [.emptyResponse]
  else
    let raw := env.generatedText.data
    match extract_code_between_markers raw main_code_marker end_main_code_marker with
    | none => [.extractionFailedMain]
    | some code_to_stage =>
      if code_to_stage = [] then [.extractionFailedMain]
      else
        match extract_code_between_markers raw test_code_marker end_test_code_marker with
        | none => [.extractionFailedTest]
        | some test_code_to_stage =>
          if test_code_to_stage = [] then [.extractionFailedTest]
          else if env.mainParses = false then [.validationFailedMain]
          else if env.testParses = false then [.validationFailedTest]
          else if env.stageMainOk = false then [.stagingFailed]
          else if env.stageTestOk = false then [.stagedMain, .stagingFailed]
          else
            [.stagedMain, .stagedTest, .confirmationPrompted] ++
              (if env.userConfirms then
                (if env.backupThrows then [.applyFailed]
                 else
                   (if env.backupExists then [.backedUp] else [.noBackupNeeded]) ++
                     (if env.applyThrows then [.applyFailed] else [.applied]))
               else [.cancelled])

/-- A well-formed generated bundle: both marker pairs present, in order,
with non-empty code between each pair. -/
def goodBundle : String :=
  "===BEGIN_MAIN_CODE===\ndef add(a, b):\n    return a + b\n===END_MAIN_CODE===\n===BEGIN_TEST_CODE===\nfrom utils.generated_utils import add\n\ndef test_add():\n    assert add(1, 2) == 3\n===END_TEST_CODE==="

/-- Pipeline environment of a fully successful run: the LLM returns
`goodBundle`, both snippets parse, staging succeeds, the operator confirms,
no prior artifact exists at the target, and the apply succeeds. -/
def happyEnv : PipelineEnv :=
  { llmSuccess := true, generatedText := goodBundle, mainParses := true,
    testParses := true, stageMainOk := true, stageTestOk := true,
    userConfirms := true, backupThrows := false, backupExists := false,
    applyThrows := false }

/-- A bundle whose main-code section is present, in order, but contains only
whitespace between the markers. -/
def emptyMainBundle : String :=
  "===BEGIN_MAIN_CODE===\n   \n===END_MAIN_CODE===\n===BEGIN_TEST_CODE===\nx = 1\n===END_TEST_CODE==="

/-- Pipeline environment whose LLM reply is `emptyMainBundle`; everything
else would succeed. -/
def emptyMainEnv : PipelineEnv :=
  { llmSuccess := true, generatedText := emptyMainBundle, mainParses := true,
    testParses := true, stageMainOk := true, stageTestOk := true,
    userConfirms := true, backupThrows := false, backupExists := false,
    applyThrows := false }

/-! ## Definitions: staging/backup/apply (`core_components/ai_updater.py`) -/

/-- A filesystem artifact: a single file with its content, or a directory
subtree with named entries. -/
inductive Artifact where
  | file (content : String)
  | dir (entries : List (String × Artifact))

/-- A filesystem root, mapping each relative path to the complete artifact
rooted there (`none` when nothing exists at that path). -/
def FileTree : Type := String → Option Artifact

/-- Embedding of `relative_path.replace(os.sep, '_')` from
`backup_module_or_file` (POSIX separator). -/
def sanitize_relative_path (p : String) : String :=
  String.map (fun c => if c = '/' then '_' else c) p

/-- The backup name `f"{sanitized_relative_path}.{timestamp}"` built by
`backup_module_or_file`; `timestamp` stands for
`datetime.datetime.now().strftime("%Y%m%d_%H%M%S_%f")`, an input here since
the clock is ambient. -/
def backup_name (relative_path timestamp : String) : String :=
  sanitize_relative_path relative_path ++ "." ++ timestamp

/-- Embedding of `AIUpdater.backup_module_or_file` (`ai_updater.py`, lines
82–124): when nothing exists at `relative_path` under the live code root,
return `None` and leave the backup root untouched (no error: the code
returns before any file operation); otherwise copy the artifact (file or
whole directory tree) into the backup root under `backup_name`.  Returns
the value Python returns together with the new backup root. -/
def backup_module_or_file (base backupStore : FileTree)
    (relative_path timestamp : String) : Option String × FileTree :=
  match base relative_path with
  | none => (none, backupStore)
  | some art =>
      let name := backup_name relative_path timestamp
      (some name, fun q => if q = name then some art else backupStore q)

/-- The removal step of `apply_staged_update`: `shutil.rmtree` when the
target is a directory, `os.remove` when it is a file; either way nothing
remains at the target path afterwards. -/
def remove_target (base : FileTree) (p : String) : FileTree :=
  fun q => if q = p then none else base q

/-- The copy step of `apply_staged_update`: `shutil.copytree`/`copy2` of
the staged artifact onto the (now vacant) target path. -/
def copy_to_target (a : Artifact) (base : FileTree) (p : String) : FileTree :=
  fun q => if q = p then some a else base q

/-- Embedding of `AIUpdater.apply_staged_update` (`ai_updater.py`, lines
126–172): `none` when nothing is staged at the path (Python raises
`FileNotFoundError`); otherwise first remove whatever exists at the target
path in the live tree, then copy the staged artifact into place. -/
def apply_staged_update (staging base : FileTree)
    (relative_staged_path : String) : Option FileTree :=
  match staging relative_staged_path with
  | none => none
  | some staged =>
      some (copy_to_target staged (remove_target base relative_staged_path)
              relative_staged_path)

/-- Concrete live tree for witnesses: a single file at
`utils/generated_utils.py`. -/
def liveTree0 : FileTree :=
  fun q => if q = "utils/generated_utils.py"
           then some (.file "def add(a, b):\n    return a - b\n") else none

/-- Concrete staging tree for witnesses: a directory staged at
`utils/generated_utils.py` (a type change relative to `liveTree0`). -/
def stagingTree0 : FileTree :=
  fun q => if q = "utils/generated_utils.py"
           then some (.dir [("__init__.py", .file "")]) else none

/-! ## Helper lemmas: first-occurrence search -/

lemma occursAt_iff (text pat : List Char) (i : Nat) :
    occursAt text pat i ↔
      (matchesAt text pat i = true ∧ i + pat.length ≤ text.length) := by
  constructor
  · rintro ⟨u, v, rfl, rfl⟩
    refine ⟨?_, by simp only [List.length_append]; omega⟩
    unfold matchesAt
    apply decide_eq_true
    rw [List.append_assoc, List.drop_left, List.take_left]
  · rintro ⟨h1, h2⟩
    rw [matchesAt, decide_eq_true_eq] at h1
    refine ⟨text.take i, text.drop (i + pat.length), ?_, ?_⟩
    · rw [List.append_assoc]
      conv_lhs => rw [← List.take_append_drop i text]
      congr 1
      conv_lhs => rw [← List.take_append_drop pat.length (text.drop i)]
      rw [h1, List.drop_drop]
    · rw [List.length_take]
      omega

lemma occursAt_length (text pat : List Char) (i : Nat)
    (h : occursAt text pat i) : i + pat.length ≤ text.length :=
  ((occursAt_iff text pat i).mp h).2

instance occursAtDecidable (text pat : List Char) (i : Nat) :
    Decidable (occursAt text pat i) :=
  decidable_of_iff _ (occursAt_iff text pat i).symm

instance firstOccFromDecidable (text pat : List Char) (s i : Nat) :
    Decidable (firstOccFrom text pat s i) := by
  unfold firstOccFrom
  infer_instance

lemma matchesAt_length (text pat : List Char) (i : Nat)
    (h : matchesAt text pat i = true) (hp : pat ≠ []) :
    i + pat.length ≤ text.length := by
  rw [matchesAt, decide_eq_true_eq] at h
  have hlen : ((text.drop i).take pat.length).length = pat.length := by rw [h]
  rw [List.length_take, List.length_drop] at hlen
  have hne : pat.length ≠ 0 := by
    simpa [List.length_eq_zero] using hp
  omega

lemma findIdxGo_eq_some_iff (text pat : List Char) :
    ∀ (fuel s i : Nat), text.length + 1 = s + fuel →
      (findIdxGo text pat s fuel = some i ↔
        (s ≤ i ∧ i ≤ text.length ∧ matchesAt text pat i = true ∧
          ∀ j, s ≤ j → j < i → matchesAt text pat j = false))
  | 0, s, i, h => by
      constructor
      · intro hc
        cases hc
      · rintro ⟨h1, h2, -, -⟩
        exfalso
        omega
  | fuel + 1, s, i, h => by
      show (if matchesAt text pat s then some s else findIdxGo text pat (s + 1) fuel)
            = some i ↔ _
      cases hx : matchesAt text pat s with
      | true =>
        rw [if_pos rfl]
        constructor
        · intro h'
          have hsi : s = i := Option.some.inj h'
          subst hsi
          exact ⟨Nat.le_refl s, by omega, hx, fun j hj1 hj2 => by omega⟩
        · rintro ⟨h1, h2, h3, h4⟩
          rcases Nat.eq_or_lt_of_le h1 with rfl | hlt
          · rfl
          · have := h4 s (Nat.le_refl s) hlt
            rw [hx] at this
            cases this
      | false =>
        rw [if_neg Bool.false_ne_true]
        rw [findIdxGo_eq_some_iff text pat fuel (s + 1) i (by omega)]
        constructor
        · rintro ⟨h1, h2, h3, h4⟩
          refine ⟨by omega, h2, h3, fun j hj1 hj2 => ?_⟩
          rcases Nat.eq_or_lt_of_le hj1 with rfl | hgt
          · exact hx
          · exact h4 j hgt hj2
        · rintro ⟨h1, h2, h3, h4⟩
          have hne : i ≠ s := by
            intro he
            rw [he, hx] at h3
            cases h3
          exact ⟨by omega, h2, h3, fun j hj1 hj2 => h4 j (by omega) hj2⟩

lemma findIdxGo_eq_none_iff (text pat : List Char) :
    ∀ (fuel s : Nat), text.length + 1 = s + fuel →
      (findIdxGo text pat s fuel = none ↔
        ∀ j, s ≤ j → j ≤ text.length → matchesAt text pat j = false)
  | 0, s, h => by
      constructor
      · intro _ j hj1 hj2
        exfalso
        omega
      · intro _
        rfl
  | fuel + 1, s, h => by
      show (if matchesAt text pat s then some s else findIdxGo text pat (s + 1) fuel)
            = none ↔ _
      cases hx : matchesAt text pat s with
      | true =>
        rw [if_pos rfl]
        constructor
        · intro hc
          cases hc
        · intro hall
          have := hall s (Nat.le_refl s) (by omega)
          rw [hx] at this
          cases this
      | false =>
        rw [if_neg Bool.false_ne_true]
        rw [findIdxGo_eq_none_iff text pat fuel (s + 1) (by omega)]
        constructor
        · intro hall j hj1 hj2
          rcases Nat.eq_or_lt_of_le hj1 with rfl | hgt
          · exact hx
          · exact hall j hgt hj2
        · intro hall j hj1 hj2
          exact hall j (by omega) hj2

lemma findIdxFrom_eq_some_iff (text pat : List Char) (s i : Nat) :
    findIdxFrom text pat s = some i ↔
      (s ≤ i ∧ i ≤ text.length ∧ matchesAt text pat i = true ∧
        ∀ j, s ≤ j → j < i → matchesAt text pat j = false) := by
  unfold findIdxFrom
  by_cases hs : s ≤ text.length
  · rw [if_pos hs]
    exact findIdxGo_eq_some_iff text pat (text.length + 1 - s) s i (by omega)
  · rw [if_neg hs]
    constructor
    · intro hc
      cases hc
    · rintro ⟨h1, h2, -, -⟩
      omega

lemma findIdxFrom_eq_none_iff (text pat : List Char) (s : Nat) :
    findIdxFrom text pat s = none ↔
      ∀ j, s ≤ j → ¬ occursAt text pat j := by
  unfold findIdxFrom
  by_cases hs : s ≤ text.length
  · rw [if_pos hs, findIdxGo_eq_none_iff text pat (text.length + 1 - s) s (by omega)]
    constructor
    · intro hall j hj1 hocc
      have hb := occursAt_length text pat j hocc
      have hm := ((occursAt_iff text pat j).mp hocc).1
      have := hall j hj1 (by omega)
      rw [hm] at this
      cases this
    · intro hall j hj1 hj2
      by_contra hne
      have hmt : matchesAt text pat j = true := by
        cases hx : matchesAt text pat j with
        | false => exact absurd hx hne
        | true => rfl
      have hocc : occursAt text pat j := by
        rw [occursAt_iff]
        by_cases hp : pat = []
        · subst hp
          exact ⟨hmt, by simpa using hj2⟩
        · exact ⟨hmt, matchesAt_length text pat j hmt hp⟩
      exact hall j hj1 hocc
  · rw [if_neg hs]
    constructor
    · intro _ j hj1 hocc
      have := occursAt_length text pat j hocc
      omega
    · intro _
      rfl

lemma findIdxFrom_some_iff_firstOccFrom (text pat : List Char) (s i : Nat) :
    findIdxFrom text pat s = some i ↔ firstOccFrom text pat s i := by
  rw [findIdxFrom_eq_some_iff]
  unfold firstOccFrom
  constructor
  · rintro ⟨h1, h2, h3, h4⟩
    refine ⟨h1, ?_, ?_⟩
    · rw [occursAt_iff]
      by_cases hp : pat = []
      · subst hp
        exact ⟨h3, by simpa using h2⟩
      · exact ⟨h3, matchesAt_length text pat i h3 hp⟩
    · intro k hk1 hk2 hocc
      have hm := ((occursAt_iff text pat k).mp hocc).1
      have := h4 k hk2 hk1
      rw [hm] at this
      cases this
  · rintro ⟨h1, h2, h3⟩
    have hb := occursAt_length text pat i h2
    refine ⟨h1, by omega, ((occursAt_iff text pat i).mp h2).1, ?_⟩
    intro j hj1 hj2
    by_contra hne
    have hmt : matchesAt text pat j = true := by
      cases hx : matchesAt text pat j with
      | false => exact absurd hx hne
      | true => rfl
    have hocc : occursAt text pat j := by
      rw [occursAt_iff]
      by_cases hp : pat = []
      · subst hp
        refine ⟨hmt, ?_⟩
        simp only [List.length_nil] at hb ⊢
        omega
      · exact ⟨hmt, matchesAt_length text pat j hmt hp⟩
    exact h3 j hj2 hj1 hocc

lemma firstOccFrom_unique (text pat : List Char) (s i i' : Nat)
    (h1 : firstOccFrom text pat s i) (h2 : firstOccFrom text pat s i') :
    i = i' := by
  rcases Nat.lt_trichotomy i i' with hlt | heq | hgt
  · exact absurd h1.2.1 (h2.2.2 i hlt h1.1)
  · exact heq
  · exact absurd h2.2.1 (h1.2.2 i' hgt h2.1)

/-! ## Helper lemmas: backup names -/

lemma backup_name_inj_timestamp (p t1 t2 : String)
    (h : backup_name p t1 = backup_name p t2) : t1 = t2 := by
  unfold backup_name at h
  have h2 : (sanitize_relative_path p ++ "." ++ t1).data
      = (sanitize_relative_path p ++ "." ++ t2).data := by rw [h]
  rw [String.data_append, String.data_append, String.data_append,
    String.data_append] at h2
  have h3 := List.append_cancel_left h2
  cases t1
  cases t2
  exact congrArg String.mk h3

/-! ## Claim theorems -/

/-- C2: for every snippet execution the returned result has `success = true`
iff the executor itself did not fail (`error = none`: no timeout, no spawn
error) and the child process exit code is exactly zero; in particular a
snippet that runs to completion and exits with a non-zero code yields
`success = false` with that exit code recorded. -/
theorem c2_success_iff_exit_zero (p : String) (el : Nat) (o : ProcOutcome) :
    ((execute_python_snippet p el o).1.success = true ↔
      ((execute_python_snippet p el o).1.error = none ∧
        (execute_python_snippet p el o).1.return_code = 0)) ∧
    (∀ out err : String, ∀ c : Int, c ≠ 0 →
      (execute_python_snippet p el (.completed out err c)).1.success = false ∧
      (execute_python_snippet p el (.completed out err c)).1.return_code = c) := by
  constructor
  · cases o <;> simp [execute_python_snippet]
  · intro out err c hc
    simp [execute_python_snippet, hc]

/-- Closed witness for `c2_success_iff_exit_zero` at the exit code 5. -/
theorem c2_success_iff_exit_zero_witness :
    (execute_python_snippet "python3" 7 (.completed "Exiting with code 5" "" 5)).1.success
        = false ∧
    (execute_python_snippet "python3" 7 (.completed "Exiting with code 5" "" 5)).1.return_code
        = 5 :=
  (c2_success_iff_exit_zero "python3" 7
      (.completed "Exiting with code 5" "" 5)).2 "Exiting with code 5" "" 5 (by decide)

/-- C3: a run whose child process exceeds the timeout yields
`success = false`, the executor-level error `"Execution timed out."`, the
sentinel exit code `-1`, and preserves the output drained from the killed
process; moreover the sentinel differs from the exit code reported for any
process that ran to completion with a (non-negative) real exit code. -/
theorem c3_timeout_result (p : String) (el : Nat) (out err : String) :
    ((execute_python_snippet p el (.timedOut out err)).1 =
      { success := false, stdout := out, stderr := err, return_code := -1,
        duration := el, error := some "Execution timed out." }) ∧
    (∀ out' err' : String, ∀ el' : Nat, ∀ c : Int, 0 ≤ c →
      (execute_python_snippet p el' (.completed out' err' c)).1.return_code ≠
      (execute_python_snippet p el (.timedOut out err)).1.return_code) := by
  refine ⟨rfl, ?_⟩
  intro out' err' el' c hc
  simp only [execute_python_snippet]
  omega

/-- Closed witness for `c3_timeout_result`: the output printed before the
timeout is preserved and the sentinel is distinct from the real exit code 0. -/
theorem c3_timeout_result_witness :
    ((execute_python_snippet "python3" 2 (.timedOut "Starting long task..." "")).1 =
      { success := false, stdout := "Starting long task...", stderr := "",
        return_code := -1, duration := 2, error := some "Execution timed out." }) ∧
    (execute_python_snippet "python3" 1 (.completed "done" "" 0)).1.return_code ≠
      (execute_python_snippet "python3" 2 (.timedOut "Starting long task..." "")).1.return_code :=
  ⟨(c3_timeout_result "python3" 2 "Starting long task..." "").1,
    (c3_timeout_result "python3" 2 "Starting long task..." "").2 "done" "" 1 0 (by decide)⟩

/-- C8: the temporary source file is deleted on every exit path of
`execute_python_snippet` — normal completion, timeout, spawn failure, or any
other exception — regardless of the execution outcome. -/
theorem c8_temp_file_always_deleted (p : String) (el : Nat) (o : ProcOutcome) :
    (execute_python_snippet p el o).2 = false := by
  cases o <;> rfl

/-- Counterexample to C9 as stated: a spawn-time failure other than
`FileNotFoundError` (the generic `except Exception` branch of the Python
code) records the exception text in `stderr`, so the captured stderr is not
empty. -/
theorem c9_spawn_failure_stderr_not_empty :
    (execute_python_snippet "python3" 0 (.spawnFailure "boom")).1.stderr = "boom" ∧
    ("boom" : String) ≠ "" := by
  exact ⟨rfl, by decide⟩

/-- C9 (amended): for every spawn-time failure the result has
`success = false`, empty captured stdout, an executor-level error string
describing the failure, and the exit code sentinel `-1`; the captured
stderr is empty when the interpreter is not found, and carries the spawn
exception's text for any other spawn-time failure. -/
theorem c9_spawn_failure_result (p : String) (el : Nat) :
    ((execute_python_snippet p el .interpreterNotFound).1 =
      { success := false, stdout := "", stderr := "", return_code := -1,
        duration := el,
        error := some ("Python interpreter not found at " ++ p ++ ".") }) ∧
    (∀ msg : String,
      (execute_python_snippet p el (.spawnFailure msg)).1 =
        { success := false, stdout := "", stderr := msg, return_code := -1,
          duration := el,
          error := some ("An unexpected error occurred: " ++ msg) }) :=
  ⟨rfl, fun _ => rfl⟩

/-- C6: for every bundle text and marker pair, `extract_code_between_markers`
returns the trimmed substring strictly between the first occurrence of the
begin marker and the first occurrence of the end marker after it; and it
returns `none` exactly when the begin marker is missing, or the end marker
is missing or occurs only before the end of the begin marker (out of
order), i.e. when no occurrence of the end marker lies at or after the end
of the first begin marker. -/
theorem c6_extract_between_markers (text b e : List Char) :
    (∀ i j, firstOccFrom text b 0 i → firstOccFrom text e (i + b.length) j →
      extract_code_between_markers text b e =
        some (pyStrip ((text.drop (i + b.length)).take (j - (i + b.length))))) ∧
    (extract_code_between_markers text b e = none ↔
      ((¬ ∃ i, occursAt text b i) ∨
        (∃ i, firstOccFrom text b 0 i ∧
          ¬ ∃ j, i + b.length ≤ j ∧ occursAt text e j))) := by
  constructor
  · intro i j h1 h2
    have hb : findIdxFrom text b 0 = some i :=
      (findIdxFrom_some_iff_firstOccFrom text b 0 i).mpr h1
    have he : findIdxFrom text e (i + b.length) = some j :=
      (findIdxFrom_some_iff_firstOccFrom text e (i + b.length) j).mpr h2
    simp only [extract_code_between_markers, hb, he]
  · cases hb : findIdxFrom text b 0 with
    | none =>
      apply iff_of_true
      · simp only [extract_code_between_markers, hb]
      · left
        rintro ⟨i, hi⟩
        exact (findIdxFrom_eq_none_iff text b 0).mp hb i (Nat.zero_le i) hi
    | some i =>
      have hfi : firstOccFrom text b 0 i :=
        (findIdxFrom_some_iff_firstOccFrom text b 0 i).mp hb
      cases he : findIdxFrom text e (i + b.length) with
      | none =>
        apply iff_of_true
        · simp only [extract_code_between_markers, hb, he]
        · right
          refine ⟨i, hfi, ?_⟩
          rintro ⟨j, hj1, hj2⟩
          exact (findIdxFrom_eq_none_iff text e (i + b.length)).mp he j hj1 hj2
      | some j =>
        apply iff_of_false
        · simp only [extract_code_between_markers, hb, he]
          intro hc
          cases hc
        · rintro (h | ⟨i', hi', hne⟩)
          · exact h ⟨i, hfi.2.1⟩
          · have hii : i' = i := firstOccFrom_unique text b 0 i' i hi' hfi
            subst hii
            have hj : firstOccFrom text e (i' + b.length) j :=
              (findIdxFrom_some_iff_firstOccFrom text e (i' + b.length) j).mp he
            exact hne ⟨j, hj.1, hj.2.1⟩

/-- Closed witness for `c6_extract_between_markers` on a small bundle:
the begin marker first occurs at index 0, the end marker first occurs at
index 7 after it, and the stripped text strictly between them is `"hi"`. -/
theorem c6_extract_between_markers_witness :
    extract_code_between_markers "=B= hi =E=x".data "=B=".data "=E=".data
      = some "hi".data := by
  have h := (c6_extract_between_markers "=B= hi =E=x".data "=B=".data "=E=".data).1
      0 7 (by decide) (by decide)
  rw [h]
  decide

/-- C7: exit code 0 from the pytest invocation yields `passed = true`; the
tests-failed exit code 1 yields `passed = false` with the captured stdout
and stderr attached verbatim (each appears as a contiguous substring of the
output); any other exit code yields `passed = false` with the output
prefixed by a tool-level error message; and a run exceeding the fixed
60-second timeout yields `passed = false` with a timed-out message. -/
theorem c7_test_runner_results (out err : String) :
    (execute_staged_tests (.completed out err 0) = (true, pytest_output out err)) ∧
    ((execute_staged_tests (.completed out err 1) = (false, pytest_output out err)) ∧
      (∃ u v, (pytest_output out err).data = u ++ out.data ++ v) ∧
      (err ≠ "" → ∃ u v, (pytest_output out err).data = u ++ err.data ++ v)) ∧
    (∀ c : Int, c ≠ 0 → c ≠ 1 →
      execute_staged_tests (.completed out err c) =
        (false, "Pytest execution error (code " ++ toString c ++ ").\n"
                  ++ pytest_output out err)) ∧
    (pytest_timeout_seconds = 60 ∧
      execute_staged_tests .timedOut = (false, "Pytest execution timed out.")) := by
  refine ⟨by simp [execute_staged_tests], ⟨by simp [execute_staged_tests], ?_, ?_⟩, ?_, rfl, rfl⟩
  · refine ⟨"Pytest STDOUT:\n".data,
      "\n".data ++ (if err ≠ "" then "Pytest STDERR:\n" ++ err ++ "\n" else "").data, ?_⟩
    simp [pytest_output, String.data_append, List.append_assoc]
  · intro hne
    refine ⟨"Pytest STDOUT:\n".data ++ out.data ++ "\n".data ++ "Pytest STDERR:\n".data,
      "\n".data, ?_⟩
    simp [pytest_output, String.data_append, List.append_assoc, hne]
  · intro c h0 h1
    simp [execute_staged_tests, h0, h1]

/-- Closed witness for `c7_test_runner_results`: exit code 2 is reported as
a tool-level error distinct from test failures, and a non-empty stderr is
attached verbatim. -/
theorem c7_test_runner_results_witness :
    execute_staged_tests (.completed "collected 1 item" "warn" 2) =
      (false,
        "Pytest execution error (code 2).\nPytest STDOUT:\ncollected 1 item\nPytest STDERR:\nwarn\n") ∧
    (∃ u v, (pytest_output "collected 1 item" "warn").data = u ++ "warn".data ++ v) := by
  constructor
  · have h := (c7_test_runner_results "collected 1 item" "warn").2.2.1 2
      (by decide) (by decide)
    rw [h]
    rfl
  · exact (c7_test_runner_results "collected 1 item" "warn").2.1.2.2 (by decide)

set_option maxRecDepth 40000 in
/-- C1 (evidence of the code bug): the embedded `propose_self_update` run
`happyEnv` stages both artifacts and reaches the operator confirmation
gate, yet the test runner is never invoked: `_execute_staged_tests` is
defined but never called by `process_command`, which prints that automated
test execution is skipped and prompts for confirmation directly after
staging, contradicting the requirement that the confirmation gate is
presented only after the testing phase reports success. -/
theorem c1_confirmation_without_tests :
    process_self_update happyEnv =
      [PipelineEvent.stagedMain, PipelineEvent.stagedTest,
       PipelineEvent.confirmationPrompted, PipelineEvent.noBackupNeeded,
       PipelineEvent.applied] ∧
    PipelineEvent.testRunnerInvoked ∉ process_self_update happyEnv := by
  constructor
  · decide
  · decide

/-- C10: a whitespace-only region between the markers strips to the empty
string, and the pipeline treats an empty extracted section exactly like
missing markers: the run reports the section's extraction failure and
terminates before any validation or staging event. -/
theorem c10_empty_section_rejected :
    (∀ l : List Char, (∀ c ∈ l, isPySpace c = true) → pyStrip l = []) ∧
    (∀ env : PipelineEnv, env.llmSuccess = true → env.generatedText ≠ "" →
      (extract_code_between_markers env.generatedText.data main_code_marker
          end_main_code_marker = some [] ∨
        extract_code_between_markers env.generatedText.data main_code_marker
          end_main_code_marker = none) →
      process_self_update env = [PipelineEvent.extractionFailedMain]) ∧
    (∀ env : PipelineEnv, ∀ m : List Char, env.llmSuccess = true →
      env.generatedText ≠ "" →
      extract_code_between_markers env.generatedText.data main_code_marker
          end_main_code_marker = some m → m ≠ [] →
      (extract_code_between_markers env.generatedText.data test_code_marker
          end_test_code_marker = some [] ∨
        extract_code_between_markers env.generatedText.data test_code_marker
          end_test_code_marker = none) →
      process_self_update env = [PipelineEvent.extractionFailedTest]) := by
  refine ⟨?_, ?_, ?_⟩
  · intro l hl
    have h1 : l.dropWhile isPySpace = [] := by
      rw [List.dropWhile_eq_nil_iff]
      intro x hx
      exact hl x hx
    simp [pyStrip, h1]
  · intro env h1 h2 h3
    rcases h3 with h3 | h3 <;>
      simp [process_self_update, h1, h2, h3]
  · intro env m h1 h2 h3 hm h4
    rcases h4 with h4 | h4 <;>
      simp [process_self_update, h1, h2, h3, hm, h4]

/-- Closed witness for `c10_empty_section_rejected`: the bundle
`emptyMainBundle` has both main-code markers in order with only whitespace
between them, and the run terminates with the main extraction failure and
no validation or staging event. -/
theorem c10_empty_section_rejected_witness :
    process_self_update emptyMainEnv = [PipelineEvent.extractionFailedMain] :=
  c10_empty_section_rejected.2.1 emptyMainEnv (by decide) (by decide)
    (Or.inl (by decide))

/-- C4: backing up a relative path with no artifact under the live codebase
root returns no record and leaves the backup root untouched (the code
returns before any file operation, so no error can arise); backing up an
existing path records a copy under the sanitized-path-plus-timestamp name;
and two backups of the same existing path at distinct timestamps produce
distinct backup names, the second never overwriting the first — both
records remain retrievable. -/
theorem c4_backup_records (base store : FileTree) (p t1 t2 : String) :
    (base p = none → backup_module_or_file base store p t1 = (none, store)) ∧
    (∀ a : Artifact, base p = some a →
      (backup_module_or_file base store p t1).1 = some (backup_name p t1) ∧
      (backup_module_or_file base store p t1).2 (backup_name p t1) = some a) ∧
    (∀ a : Artifact, base p = some a → t1 ≠ t2 →
      backup_name p t1 ≠ backup_name p t2 ∧
      (backup_module_or_file base
          (backup_module_or_file base store p t1).2 p t2).2 (backup_name p t1)
        = some a ∧
      (backup_module_or_file base
          (backup_module_or_file base store p t1).2 p t2).2 (backup_name p t2)
        = some a) := by
  refine ⟨?_, ?_, ?_⟩
  · intro h
    simp [backup_module_or_file, h]
  · intro a h
    simp [backup_module_or_file, h]
  · intro a h hne
    have hnn : backup_name p t1 ≠ backup_name p t2 :=
      fun hc => hne (backup_name_inj_timestamp p t1 t2 hc)
    refine ⟨hnn, ?_, ?_⟩
    · simp [backup_module_or_file, h, hnn]
    · simp [backup_module_or_file, h]

/-- Closed witness for `c4_backup_records`: a missing path produces no
record; two backups of the live `utils/generated_utils.py` at distinct
microsecond timestamps get distinct names and the first record survives the
second backup. -/
theorem c4_backup_records_witness :
    backup_module_or_file liveTree0 (fun _ => none) "missing.py"
        "20240101_000000_000001" = (none, fun _ => none) ∧
    backup_name "utils/generated_utils.py" "20240101_000000_000001"
      ≠ backup_name "utils/generated_utils.py" "20240101_000000_000002" ∧
    (backup_module_or_file liveTree0
        (backup_module_or_file liveTree0 (fun _ => none)
            "utils/generated_utils.py" "20240101_000000_000001").2
        "utils/generated_utils.py" "20240101_000000_000002").2
      (backup_name "utils/generated_utils.py" "20240101_000000_000001")
      = some (.file "def add(a, b):\n    return a - b\n") := by
  refine ⟨?_, ?_, ?_⟩
  · exact (c4_backup_records liveTree0 (fun _ => none) "missing.py"
      "20240101_000000_000001" "x").1 rfl
  · exact ((c4_backup_records liveTree0 (fun _ => none)
      "utils/generated_utils.py" "20240101_000000_000001"
      "20240101_000000_000002").2.2
      (.file "def add(a, b):\n    return a - b\n") rfl (by decide)).1
  · exact ((c4_backup_records liveTree0 (fun _ => none)
      "utils/generated_utils.py" "20240101_000000_000001"
      "20240101_000000_000002").2.2
      (.file "def add(a, b):\n    return a - b\n") rfl (by decide)).2.1

/-- C5: applying a staged artifact to a target path first removes whatever
artifact exists there (directory via `rmtree`, file via `remove`) and then
copies the staged artifact into place, so the resulting live tree holds
exactly the staged artifact at the target — no residue survives a
directory-to-file or file-to-directory type change — and is unchanged at
every other path. -/
theorem c5_apply_replaces_target (staging base : FileTree) (p : String) :
    (∀ a : Artifact, staging p = some a →
      apply_staged_update staging base p =
        some (copy_to_target a (remove_target base p) p) ∧
      ∃ base', apply_staged_update staging base p = some base' ∧
        base' p = some a ∧ ∀ q, q ≠ p → base' q = base q) ∧
    (staging p = none → apply_staged_update staging base p = none) := by
  constructor
  · intro a h
    refine ⟨by simp [apply_staged_update, h], ?_⟩
    refine ⟨copy_to_target a (remove_target base p) p,
      by simp [apply_staged_update, h], ?_, ?_⟩
    · simp [copy_to_target]
    · intro q hq
      simp [copy_to_target, remove_target, hq]
  · intro h
    simp [apply_staged_update, h]

/-- Closed witness for `c5_apply_replaces_target`: a staged directory
replaces a pre-existing live file at the same path (a type change), leaving
exactly the staged directory there and every other path untouched. -/
theorem c5_apply_replaces_target_witness :
    ∃ base', apply_staged_update stagingTree0 liveTree0
        "utils/generated_utils.py" = some base' ∧
      base' "utils/generated_utils.py" = some (.dir [("__init__.py", .file "")]) ∧
      ∀ q, q ≠ "utils/generated_utils.py" → base' q = liveTree0 q :=
  ((c5_apply_replaces_target stagingTree0 liveTree0
      "utils/generated_utils.py").1 (.dir [("__init__.py", .file "")]) rfl).2
